import Mathlib

/-!
Shallow embedding of the producer/consumer session layer of the go-pulsar
client (src/producer.go and src/consumer.go) and proofs of the spec claims.

The underlying connection is an external collaborator; it is modelled as a
scripted oracle: `ConnState` carries a script of results for successive
lookup / send / receive calls, a log of every request handed to `Send`, and
counters of calls. Go uint64 arithmetic is modelled as Nat with explicit
reduction modulo 2 ^ 64; Go int32 conversion as `toInt32`.
-/

namespace GoPulsar

/-- 2 ^ 64, the modulus of Go uint64 arithmetic. -/
def U64 : Nat := 2 ^ 64

/-- Go int32 conversion: truncation to 32 bits, two-complement. -/
def toInt32 (n : Nat) : Int := ((n : Int) + 2 ^ 31) % 2 ^ 32 - 2 ^ 31

/-- Command kinds of pulsar_proto.BaseCommand replies this layer inspects. -/
inductive CommandType
  | PRODUCER_SUCCESS
  | SEND_RECEIPT
  | MESSAGE
  | SUCCESS
  | ERROR
  | CONNECTED
deriving DecidableEq, Repr

/-- pulsar_proto.CommandSubscribe_SubType. -/
inductive SubType
  | Exclusive
  | Shared
  | Failover
deriving DecidableEq, Repr

/-- pulsar_proto.CompressionType. -/
inductive CompressionType
  | NONE
  | LZ4
  | ZLIB
deriving DecidableEq, Repr

/-- pulsar_proto.CommandAck_AckType. -/
inductive AckType
  | Individual
  | Cumulative
deriving DecidableEq, Repr

/-- pulsar_proto.CommandAck_ValidationError. -/
inductive ValidationError
  | UncompressedSizeCorruption
  | DecompressionError
  | ChecksumMismatch
deriving DecidableEq, Repr

/-- A key-value property pair. -/
structure KeyValue where
  key : String
  value : String
deriving DecidableEq, Repr

/-- KeyValues, the list of property pairs handed to SendSend. -/
abbrev KeyValues := List KeyValue

/-- Modelled from the spec: `KeyValues.Convert` lives in the repository
outside src/ (proto/command package); per the spec the send metadata carries
"the property map", so the conversion to the wire representation preserves
the key-value pairs. -/
def KeyValues.Convert (kv : KeyValues) : List KeyValue := kv

/-- pulsar_proto.MessageIdData. -/
structure MessageIdData where
  ledgerId : Nat
  entryId : Nat
deriving DecidableEq, Repr

/-- pulsar_proto.CommandProducerSuccess: the broker reply carrying the
assigned producer name. -/
structure CommandProducerSuccess where
  producerName : String
deriving DecidableEq, Repr

/-- Go `success.GetProducerName()`: on a nil pointer the getter returns the
zero value "". -/
def GetProducerName : Option CommandProducerSuccess → String
  | none => ""
  | some s => s.producerName

/-- pulsar_proto.CommandSendReceipt. -/
structure CommandSendReceipt where
  producerId : Nat
  sequenceId : Nat
deriving DecidableEq, Repr

/-- pulsar_proto.CommandMessage. -/
structure CommandMessage where
  consumerId : Nat
  messageId : MessageIdData
deriving DecidableEq, Repr

/-- The sub-commands a reply BaseCommand may carry (Go nil pointers are
`none`): `GetRawCommand().GetProducerSuccess()` etc. read these fields. -/
structure RawCommand where
  producerSuccess : Option CommandProducerSuccess := none
  sendReceipt : Option CommandSendReceipt := none
  message : Option CommandMessage := none
deriving DecidableEq, Repr

/-- pulsar_proto.BaseCommand of a reply: a type tag plus raw command. -/
structure BaseCommand where
  type : CommandType
  rawCommand : RawCommand
deriving DecidableEq, Repr

/-- A decoded reply from the connection: base command plus raw payload. -/
structure Response where
  baseCommand : BaseCommand
  payload : String
deriving DecidableEq, Repr

/-- The protocol commands this layer sends, one constructor per Go
pulsar_proto command struct built in src/. -/
inductive ProtoMessage
  | producer (topic : String) (producerId requestId : Nat)
  | send (producerId sequenceId : Nat) (numMessages : Int)
  | closeProducer (producerId requestId : Nat)
  | subscribe (topic subscription : String) (subType : SubType)
      (consumerId requestId : Nat)
  | flow (consumerId : Nat) (messagePermits : Nat)
  | ack (consumerId : Nat) (ackType : AckType)
      (messageId : Option MessageIdData)
      (validationError : Option ValidationError)
  | closeConsumer (consumerId requestId : Nat)
deriving DecidableEq, Repr

/-- pulsar_proto.MessageMetadata as built by SendSend / SendBatchSend. -/
structure MessageMetadata where
  producerName : String
  sequenceId : Nat
  publishTime : Nat
  properties : List KeyValue
  compression : Option CompressionType := none
  numMessagesInBatch : Option Int := none
deriving DecidableEq, Repr

/-- Request: the unit handed to conn.Send — command, optional metadata,
optional single payload, optional batch of payloads. -/
structure Request where
  message : ProtoMessage
  meta : Option MessageMetadata := none
  payload : Option String := none
  batchMessage : Option (List String) := none
deriving DecidableEq, Repr

/-- Error values: `wrap` is errors.Wrap (operation label plus original
cause), `unknownCommandType` is the errors.Errorf protocol error raised by
ReceiveProducerSuccess, `connFailure` is an error originating in the
connection collaborator. -/
inductive PError
  | wrap (msg : String) (cause : PError)
  | unknownCommandType (t : CommandType)
  | connFailure (msg : String)
deriving DecidableEq, Repr

/-- The connection collaborator, modelled as a scripted oracle. Each script
entry is consumed by one call; an exhausted script means the call succeeds
(and Receive yields a generic connection failure, since the collaborator
must produce something). `sentRequests` logs every request handed to Send;
`lookupCalls` and `recvCalls` count calls. -/
structure ConnState where
  lookupScript : List (Option PError) := []
  sendScript : List (Option PError) := []
  recvScript : List (Except PError Response) := []
  sentRequests : List Request := []
  lookupCalls : Nat := 0
  recvCalls : Nat := 0

/-- conn.Send(request): logs the request, returns the scripted error. -/
def ConnState.Send (c : ConnState) (r : Request) : ConnState × Option PError :=
  match c.sendScript with
  | [] => ({ c with sentRequests := c.sentRequests ++ [r] }, none)
  | e :: rest =>
      ({ c with sendScript := rest, sentRequests := c.sentRequests ++ [r] }, e)

/-- conn.Receive(): returns the next scripted reply. -/
def ConnState.Receive (c : ConnState) : ConnState × Except PError Response :=
  match c.recvScript with
  | [] => ({ c with recvCalls := c.recvCalls + 1 },
           Except.error (PError.connFailure "no response"))
  | r :: rest =>
      ({ c with recvScript := rest, recvCalls := c.recvCalls + 1 }, r)

/-- Modelled from the spec: topic lookup/routing
(`resolveAndConnect(topic, requestId, authoritative) -> error`) is performed
by the connection collaborator, whose code is not under src/; it either
succeeds or fails with an error, scripted here. -/
def ConnState.LookupTopic (c : ConnState) (_topic : String) (_requestId : Nat)
    (_authoritative : Bool) : ConnState × Option PError :=
  match c.lookupScript with
  | [] => ({ c with lookupCalls := c.lookupCalls + 1 }, none)
  | e :: rest =>
      ({ c with lookupScript := rest, lookupCalls := c.lookupCalls + 1 }, e)

/-- Modelled from the spec: SetLookupTopicConnection performs the same
topic lookup/routing step before CreateProducer; its code is not under
src/. -/
def ConnState.SetLookupTopicConnection (c : ConnState) (topic : String)
    (requestId : Nat) (authoritative : Bool) : ConnState × Option PError :=
  c.LookupTopic topic requestId authoritative

/-- The Producer struct of src/producer.go (the embedded PulsarClient is
represented by the explicitly passed ConnState). -/
structure Producer where
  SequenceID : Nat
  Name : String
  Topic : String
  ID : Nat
deriving DecidableEq, Repr

/-- NewProducer: SequenceID 0, ID and Topic from the arguments, Name left
at the Go zero value "". -/
def NewProducer (producerID : Nat) (topic : String) : Producer :=
  { SequenceID := 0, Name := "", Topic := topic, ID := producerID }

/-- Producer.CreateProducer: lookup, then send a CommandProducer carrying
topic, producer ID and request ID; each failure is wrapped. -/
def Producer.CreateProducer (p : Producer) (c : ConnState) (requestId : Nat) :
    ConnState × Option PError :=
  match c.SetLookupTopicConnection p.Topic requestId false with
  | (c1, some e) =>
      (c1, some (PError.wrap "failed to set lookup topic connection" e))
  | (c1, none) =>
      let producer := ProtoMessage.producer p.Topic p.ID requestId
      match c1.Send { message := producer } with
      | (c2, some e) =>
          (c2, some (PError.wrap "failed to send producer command" e))
      | (c2, none) => (c2, none)

/-- Producer.ReceiveProducerSuccess: one blocking receive; a transport
error is wrapped; a reply of kind PRODUCER_SUCCESS yields its
CommandProducerSuccess sub-command; any other kind is the protocol error
errors.Errorf("unknown command type: %v", t). -/
def Producer.ReceiveProducerSuccess (_p : Producer) (c : ConnState) :
    ConnState × Except PError (Option CommandProducerSuccess) :=
  match c.Receive with
  | (c1, Except.error e) =>
      (c1, Except.error (PError.wrap "failed to receive producerSuccess command" e))
  | (c1, Except.ok res) =>
      match res.baseCommand.type with
      | CommandType.PRODUCER_SUCCESS =>
          (c1, Except.ok res.baseCommand.rawCommand.producerSuccess)
      | t => (c1, Except.error (PError.unknownCommandType t))

/-- Producer.Open: CreateProducer, then ReceiveProducerSuccess; only on
success is p.Name assigned from the reply. -/
def Producer.Open (p : Producer) (c : ConnState) (requestID : Nat) :
    Producer × ConnState × Option PError :=
  match p.CreateProducer c requestID with
  | (c1, some e) => (p, c1, some e)
  | (c1, none) =>
      match p.ReceiveProducerSuccess c1 with
      | (c2, Except.error e) => (p, c2, some e)
      | (c2, Except.ok success) =>
          ({ p with Name := GetProducerName success }, c2, none)

/-- const defaultNumMessages = 1. -/
def defaultNumMessages : Int := 1

/-- Producer.SendSend: atomically draws the next sequence ID
(atomic.AddUint64(&p.SequenceID, 1) - 1, uint64 arithmetic), builds the
CommandSend and MessageMetadata, and issues command + metadata + payload as
one request; `now` is the value of time.Now().Unix(), whole seconds. -/
def Producer.SendSend (p : Producer) (c : ConnState) (now : Nat)
    (payload : String) (keyValues : KeyValues) :
    Producer × ConnState × Option PError :=
  let newSeq := (p.SequenceID + 1) % U64
  let sequenceID := (newSeq + (U64 - 1)) % U64
  let send := ProtoMessage.send p.ID sequenceID defaultNumMessages
  let meta : MessageMetadata :=
    { producerName := p.Name, sequenceId := sequenceID,
      publishTime := now % U64, properties := keyValues.Convert }
  let request : Request :=
    { message := send, meta := some meta, payload := some payload }
  let p1 := { p with SequenceID := newSeq }
  match c.Send request with
  | (c1, some e) =>
      (p1, c1, some (PError.wrap "failed to send send command" e))
  | (c1, none) => (p1, c1, none)

/-- Producer.SendBatchSend: draws one sequence ID for the whole batch,
sets NumMessages and NumMessagesInBatch both to int32(len(batchMessage)),
builds metadata with an empty property list and the given compression, and
issues command + metadata + batch as one request. -/
def Producer.SendBatchSend (p : Producer) (c : ConnState) (now : Nat)
    (batchMessage : List String) (compression : Option CompressionType) :
    Producer × ConnState × Option PError :=
  let newSeq := (p.SequenceID + 1) % U64
  let sequenceID := (newSeq + (U64 - 1)) % U64
  let numMessages := toInt32 batchMessage.length
  let send := ProtoMessage.send p.ID sequenceID numMessages
  let meta : MessageMetadata :=
    { producerName := p.Name, sequenceId := sequenceID,
      publishTime := now % U64, properties := [],
      compression := compression,
      numMessagesInBatch := some numMessages }
  let request : Request :=
    { message := send, meta := some meta, batchMessage := some batchMessage }
  let p1 := { p with SequenceID := newSeq }
  match c.Send request with
  | (c1, some e) =>
      (p1, c1, some (PError.wrap "failed to send batch send command" e))
  | (c1, none) => (p1, c1, none)

/-- Producer.ReceiveSendReceipt: one blocking receive; a transport error is
wrapped; otherwise the reply is read as a send receipt via
GetRawCommand().GetSendReceipt() with no check of the command kind. -/
def Producer.ReceiveSendReceipt (_p : Producer) (c : ConnState) :
    ConnState × Except PError (Option CommandSendReceipt) :=
  match c.Receive with
  | (c1, Except.error e) =>
      (c1, Except.error (PError.wrap "failed to receive sendReceipt command" e))
  | (c1, Except.ok res) =>
      (c1, Except.ok res.baseCommand.rawCommand.sendReceipt)

/-- Producer.CloseProducer: sends one CommandCloseProducer; no receive. -/
def Producer.CloseProducer (p : Producer) (c : ConnState) (requestId : Nat) :
    Producer × ConnState × Option PError :=
  let close := ProtoMessage.closeProducer p.ID requestId
  match c.Send { message := close } with
  | (c1, some e) =>
      (p, c1, some (PError.wrap "failed to send closeProducer command" e))
  | (c1, none) => (p, c1, none)

/-- Modelled from the spec: command.Message / command.NewMessage live in
the repository outside src/; per the spec a message value is composed of
the reply envelope (the CommandMessage) and the raw payload. -/
structure Message where
  command : Option CommandMessage
  payload : String
deriving DecidableEq, Repr

/-- Modelled from the spec: command.NewMessage pairs the message command
with the payload. -/
def NewMessage (cmd : Option CommandMessage) (payload : String) : Message :=
  { command := cmd, payload := payload }

/-- Consumer.Subscribe of src/consumer.go: lookup, then send a
CommandSubscribe. NOTE, faithful to the source: the SubType field is the
constant pulsar_proto.CommandSubscribe_Shared; the subType argument is not
used. -/
def Consumer.Subscribe (c : ConnState) (topic subscription _subType : String)
    (consumerId requestId : Nat) : ConnState × Option PError :=
  match c.LookupTopic topic requestId false with
  | (c1, some e) =>
      (c1, some (PError.wrap "failed to request lookup command" e))
  | (c1, none) =>
      let sub := ProtoMessage.subscribe topic subscription SubType.Shared
        consumerId requestId
      match c1.Send { message := sub } with
      | (c2, some e) =>
          (c2, some (PError.wrap "failed to send subscribe command" e))
      | (c2, none) => (c2, none)

/-- Consumer.Flow: sends one CommandFlow. -/
def Consumer.Flow (c : ConnState) (consumerId : Nat) (messagePermits : Nat) :
    ConnState × Option PError :=
  let flow := ProtoMessage.flow consumerId messagePermits
  match c.Send { message := flow } with
  | (c1, some e) =>
      (c1, some (PError.wrap "failed to request flow command" e))
  | (c1, none) => (c1, none)

/-- Consumer.ReceiveMessage: one blocking receive; a transport error is
wrapped; otherwise the reply is read as a message command via
GetRawCommand().GetMessage() with no check of the command kind, and a
Message is built from it and the payload. -/
def Consumer.ReceiveMessage (c : ConnState) :
    ConnState × Except PError Message :=
  match c.Receive with
  | (c1, Except.error e) =>
      (c1, Except.error (PError.wrap "failed to receive message command" e))
  | (c1, Except.ok res) =>
      let cmd := res.baseCommand.rawCommand.message
      (c1, Except.ok (NewMessage cmd res.payload))

/-- Consumer.SendAck: sends one CommandAck. -/
def Consumer.SendAck (c : ConnState) (consumerId : Nat) (ackType : AckType)
    (msgIdData : Option MessageIdData)
    (validationError : Option ValidationError) : ConnState × Option PError :=
  let ack := ProtoMessage.ack consumerId ackType msgIdData validationError
  match c.Send { message := ack } with
  | (c1, some e) =>
      (c1, some (PError.wrap "failed to send ack command" e))
  | (c1, none) => (c1, none)

/-- Consumer.CloseConsumer: sends one CommandCloseConsumer; no receive. -/
def Consumer.CloseConsumer (c : ConnState) (consumerId requestId : Nat) :
    ConnState × Option PError :=
  let close := ProtoMessage.closeConsumer consumerId requestId
  match c.Send { message := close } with
  | (c1, some e) =>
      (c1, some (PError.wrap "failed to send closeConsumer command" e))
  | (c1, none) => (c1, none)

/-- One send call on a producer: either SendSend (single payload plus
properties) or SendBatchSend (batch plus compression), each with the clock
value observed at that call. -/
inductive SendOp
  | single (now : Nat) (payload : String) (kv : KeyValues)
  | batch (now : Nat) (msgs : List String) (compression : Option CompressionType)

/-- Perform one send call on a producer/connection pair, keeping the
updated state (the returned error is the caller to inspect; the call itself
always happens). -/
def applySendOp (pc : Producer × ConnState) (op : SendOp) :
    Producer × ConnState :=
  match op with
  | SendOp.single now payload kv =>
      let r := pc.1.SendSend pc.2 now payload kv
      (r.1, r.2.1)
  | SendOp.batch now msgs compression =>
      let r := pc.1.SendBatchSend pc.2 now msgs compression
      (r.1, r.2.1)

/-- Run a sequence of send / batch-send calls on one producer. -/
def runSends (pc : Producer × ConnState) : List SendOp → Producer × ConnState
  | [] => pc
  | op :: ops => runSends (applySendOp pc op) ops

/-- The sequence ID carried by a request, when the request is a send
command. -/
def Request.sendSeqId (r : Request) : Option Nat :=
  match r.message with
  | ProtoMessage.send _ sid _ => some sid
  | _ => none

/-- The sequence IDs of all send commands handed to the connection, in
order. -/
def assignedSeqIds (c : ConnState) : List Nat :=
  c.sentRequests.filterMap Request.sendSeqId

lemma ConnState.Send_sentRequests (c : ConnState) (r : Request) :
    (c.Send r).1.sentRequests = c.sentRequests ++ [r] := by
  unfold ConnState.Send
  cases c.sendScript <;> rfl

lemma U64_pos : 0 < U64 := by
  unfold U64
  positivity

lemma drawn_seq_eq (s : Nat) (h : s < U64) :
    ((s + 1) % U64 + (U64 - 1)) % U64 = s := by
  have hU : 0 < U64 := U64_pos
  rcases Nat.lt_or_ge (s + 1) U64 with h1 | h1
  · rw [Nat.mod_eq_of_lt h1]
    have h2 : s + 1 + (U64 - 1) = s + U64 := by omega
    rw [h2, Nat.add_mod_right, Nat.mod_eq_of_lt h]
  · have h2 : s + 1 = U64 := by omega
    rw [h2, Nat.mod_self, Nat.zero_add,
      Nat.mod_eq_of_lt (by omega : U64 - 1 < U64)]
    omega

lemma applySendOp_seq (p : Producer) (c : ConnState) (op : SendOp)
    (h : p.SequenceID < U64) :
    (applySendOp (p, c) op).1.SequenceID = (p.SequenceID + 1) % U64 ∧
    assignedSeqIds (applySendOp (p, c) op).2 =
      assignedSeqIds c ++ [p.SequenceID] := by
  have hdraw := drawn_seq_eq p.SequenceID h
  cases op with
  | single now payload kv =>
      cases hss : c.sendScript with
      | nil =>
          simp [applySendOp, Producer.SendSend, ConnState.Send, hss,
            assignedSeqIds, Request.sendSeqId, hdraw]
      | cons e rest =>
          cases e <;>
            simp [applySendOp, Producer.SendSend, ConnState.Send, hss,
              assignedSeqIds, Request.sendSeqId, hdraw]
  | batch now msgs compression =>
      cases hss : c.sendScript with
      | nil =>
          simp [applySendOp, Producer.SendBatchSend, ConnState.Send, hss,
            assignedSeqIds, Request.sendSeqId, hdraw]
      | cons e rest =>
          cases e <;>
            simp [applySendOp, Producer.SendBatchSend, ConnState.Send, hss,
              assignedSeqIds, Request.sendSeqId, hdraw]

lemma runSends_seqIds (ops : List SendOp) (p : Producer) (c : ConnState)
    (h : p.SequenceID + ops.length ≤ U64) :
    assignedSeqIds (runSends (p, c) ops).2 =
      assignedSeqIds c ++ List.range' p.SequenceID ops.length := by
  induction ops generalizing p c with
  | nil => simp [runSends]
  | cons op tail ih =>
      simp only [List.length_cons] at h
      have hlt : p.SequenceID < U64 := by omega
      obtain ⟨hseq, hlog⟩ := applySendOp_seq p c op hlt
      rcases ha : applySendOp (p, c) op with ⟨p1, c1⟩
      rw [ha] at hseq hlog
      simp only [runSends, ha]
      cases tail with
      | nil =>
          simp only [runSends, List.length_nil, List.range'_one]
          simpa using hlog
      | cons op2 tail2 =>
          simp only [List.length_cons] at h
          have hlt2 : p.SequenceID + 1 < U64 := by omega
          have hseq1 : p1.SequenceID = p.SequenceID + 1 := by
            rw [hseq, Nat.mod_eq_of_lt hlt2]
          have hrec := ih p1 c1 (by
            rw [hseq1]
            simp only [List.length_cons]
            omega)
          rw [hrec, hseq1, hlog]
          simp only [List.length_cons]
          conv_rhs => rw [List.range'_succ]
          simp

lemma ConnState.Send_recvFrame (c : ConnState) (r : Request) :
    (c.Send r).1.recvCalls = c.recvCalls ∧
    (c.Send r).1.recvScript = c.recvScript := by
  unfold ConnState.Send
  cases c.sendScript <;> exact ⟨rfl, rfl⟩

lemma toInt32_of_lt (n : Nat) (h : n < 2 ^ 31) : toInt32 n = (n : Int) := by
  unfold toInt32
  have h1 : (0 : Int) ≤ (n : Int) + 2 ^ 31 := by positivity
  have h2 : (n : Int) + 2 ^ 31 < 2 ^ 32 := by
    have : (n : Int) < 2 ^ 31 := by exact_mod_cast h
    omega
  rw [Int.emod_eq_of_lt h1 h2]
  omega

/-- Claim C1: every sequence of SendSend / SendBatchSend calls on one
producer created by NewProducer assigns sequence IDs that are exactly the
contiguous range [0, N), one fresh ID per call, strictly increasing, with
no duplicates and no gaps (stated for N up to 2 ^ 64, the capacity of the
uint64 counter; the spec treats counter overflow as out of scope). -/
theorem seqIds_contiguous_range (ops : List SendOp) (producerID : Nat)
    (topic : String) (c : ConnState) (hfresh : c.sentRequests = [])
    (hN : ops.length ≤ U64) :
    assignedSeqIds (runSends (NewProducer producerID topic, c) ops).2 =
      List.range ops.length := by
  have h := runSends_seqIds ops (NewProducer producerID topic) c (by
    simpa [NewProducer] using hN)
  rw [h]
  simp [assignedSeqIds, hfresh, NewProducer, List.range_eq_range']

theorem seqIds_contiguous_range_witness :
    assignedSeqIds (runSends (NewProducer 7 "topic", {})
      [SendOp.single 100 "a" [], SendOp.batch 100 ["x", "y"] none,
       SendOp.single 101 "b" []]).2 = List.range 3 :=
  seqIds_contiguous_range
    [SendOp.single 100 "a" [], SendOp.batch 100 ["x", "y"] none,
     SendOp.single 101 "b" []] 7 "topic" {} rfl
    (by unfold U64; norm_num)

/-- Claim C2 is refuted by the code: Subscribe transmits the constant
Shared subscription type, not the caller-supplied one. Subscribing with
subType "Exclusive" emits a wire command whose SubType field is Shared,
and the emitted command is identical for any two subType arguments. -/
theorem subscribe_hardcodes_shared :
    (Consumer.Subscribe {} "persistent/t" "sub" "Exclusive" 1 2).1.sentRequests =
      [{ message :=
          ProtoMessage.subscribe "persistent/t" "sub" SubType.Shared 1 2 }] ∧
    ∀ (st1 st2 : String) (c : ConnState) (topic sub : String)
      (cid rid : Nat),
      Consumer.Subscribe c topic sub st1 cid rid =
        Consumer.Subscribe c topic sub st2 cid rid :=
  ⟨rfl, fun _ _ _ _ _ _ _ => rfl⟩

/-- Claim C4: for a batch of length k, the emitted send command carries
message count k and the emitted metadata carries batch message count k,
both derived from the same length value, and the batch metadata carries an
empty property list (stated for k below 2 ^ 31, the capacity of the int32
count fields). -/
theorem sendBatch_count_lockstep (p : Producer) (c : ConnState) (now : Nat)
    (batch : List String) (compression : Option CompressionType)
    (hk : batch.length < 2 ^ 31) :
    ∃ req : Request,
      (p.SendBatchSend c now batch compression).2.1.sentRequests =
        c.sentRequests ++ [req] ∧
      (∃ sid : Nat,
        req.message = ProtoMessage.send p.ID sid ((batch.length : Int))) ∧
      ∃ m : MessageMetadata, req.meta = some m ∧
        m.numMessagesInBatch = some ((batch.length : Int)) ∧
        m.properties = [] := by
  have hcount := toInt32_of_lt batch.length hk
  refine ⟨{ message := ProtoMessage.send p.ID
              (((p.SequenceID + 1) % U64 + (U64 - 1)) % U64)
              (toInt32 batch.length),
            meta := some { producerName := p.Name,
                           sequenceId :=
                             ((p.SequenceID + 1) % U64 + (U64 - 1)) % U64,
                           publishTime := now % U64, properties := [],
                           compression := compression,
                           numMessagesInBatch :=
                             some (toInt32 batch.length) },
            batchMessage := some batch }, ?_,
    ⟨((p.SequenceID + 1) % U64 + (U64 - 1)) % U64, by simp [hcount]⟩,
    ⟨_, rfl, by simp [hcount], rfl⟩⟩
  cases hss : c.sendScript with
  | nil => simp [Producer.SendBatchSend, ConnState.Send, hss]
  | cons e rest =>
      cases e <;> simp [Producer.SendBatchSend, ConnState.Send, hss]

theorem sendBatch_count_lockstep_witness :
    ∃ req : Request,
      ((NewProducer 3 "t").SendBatchSend {} 50 ["x", "y", "z"] none).2.1.sentRequests =
        ([] : List Request) ++ [req] ∧
      (∃ sid : Nat, req.message = ProtoMessage.send 3 sid ((3 : Int))) ∧
      ∃ m : MessageMetadata, req.meta = some m ∧
        m.numMessagesInBatch = some ((3 : Int)) ∧
        m.properties = [] :=
  sendBatch_count_lockstep (NewProducer 3 "t") {} 50 ["x", "y", "z"] none
    (by norm_num)

/-- Claim C5: SendSend emits exactly one request, a single unit of command
(producer ID, the freshly drawn sequence ID, message count 1), metadata
(producer name, the same sequence ID, the second-granularity publish time,
the property map) and payload, and performs no receive. -/
theorem sendSend_emits_single_unit (p : Producer) (c : ConnState)
    (now : Nat) (payload : String) (kv : KeyValues)
    (hseq : p.SequenceID < U64) (hnow : now < U64) :
    (p.SendSend c now payload kv).2.1.sentRequests = c.sentRequests ++
      [{ message := ProtoMessage.send p.ID p.SequenceID 1,
         meta := some { producerName := p.Name,
                        sequenceId := p.SequenceID,
                        publishTime := now, properties := kv,
                        compression := none, numMessagesInBatch := none },
         payload := some payload, batchMessage := none }] ∧
    (p.SendSend c now payload kv).2.1.recvCalls = c.recvCalls ∧
    (p.SendSend c now payload kv).2.1.recvScript = c.recvScript := by
  have hdraw := drawn_seq_eq p.SequenceID hseq
  have hn := Nat.mod_eq_of_lt hnow
  cases hss : c.sendScript with
  | nil =>
      refine ⟨?_, ?_, ?_⟩ <;>
        simp [Producer.SendSend, ConnState.Send, defaultNumMessages,
          KeyValues.Convert, hss, hdraw, hn]
  | cons e rest =>
      cases e <;>
        · refine ⟨?_, ?_, ?_⟩ <;>
            simp [Producer.SendSend, ConnState.Send, defaultNumMessages,
              KeyValues.Convert, hss, hdraw, hn]

theorem sendSend_emits_single_unit_witness :
    ((NewProducer 9 "t").SendSend {} 42 "hello"
        [{ key := "k", value := "v" }]).2.1.sentRequests =
      ([] : List Request) ++
      [{ message := ProtoMessage.send 9 0 1,
         meta := some { producerName := "",
                        sequenceId := 0,
                        publishTime := 42,
                        properties := [{ key := "k", value := "v" }],
                        compression := none, numMessagesInBatch := none },
         payload := some "hello", batchMessage := none }] ∧
    ((NewProducer 9 "t").SendSend {} 42 "hello"
        [{ key := "k", value := "v" }]).2.1.recvCalls = 0 ∧
    ((NewProducer 9 "t").SendSend {} 42 "hello"
        [{ key := "k", value := "v" }]).2.1.recvScript = [] :=
  sendSend_emits_single_unit (NewProducer 9 "t") {} 42 "hello"
    [{ key := "k", value := "v" }] (by norm_num [NewProducer, U64])
    (by norm_num [U64])

/-- Claim C6: CloseProducer and CloseConsumer each perform exactly one send
on the connection and zero receives. -/
theorem close_one_send_zero_receives (p : Producer) (cp cc : ConnState)
    (rid consumerId rid2 : Nat) :
    (p.CloseProducer cp rid).2.1.sentRequests.length =
      cp.sentRequests.length + 1 ∧
    (p.CloseProducer cp rid).2.1.recvCalls = cp.recvCalls ∧
    (p.CloseProducer cp rid).2.1.recvScript = cp.recvScript ∧
    (Consumer.CloseConsumer cc consumerId rid2).1.sentRequests.length =
      cc.sentRequests.length + 1 ∧
    (Consumer.CloseConsumer cc consumerId rid2).1.recvCalls = cc.recvCalls ∧
    (Consumer.CloseConsumer cc consumerId rid2).1.recvScript =
      cc.recvScript := by
  refine ⟨?_, ?_, ?_, ?_, ?_, ?_⟩
  all_goals
    first
    | (cases hss : cp.sendScript with
       | nil => simp [Producer.CloseProducer, ConnState.Send, hss]
       | cons e rest =>
           cases e <;> simp [Producer.CloseProducer, ConnState.Send, hss])
    | (cases hss : cc.sendScript with
       | nil => simp [Consumer.CloseConsumer, ConnState.Send, hss]
       | cons e rest =>
           cases e <;> simp [Consumer.CloseConsumer, ConnState.Send, hss])

/-- Claim C3: Open assigns the Name field exactly when the receive step
yields a reply of kind PRODUCER_SUCCESS; a reply of any other kind yields
the protocol error carrying the unexpected kind with Name unchanged, and a
create-step or transport failure also leaves Name unchanged. -/
theorem open_name_iff_producer_success (p : Producer) (c : ConnState)
    (rid : Nat) :
    ((p.CreateProducer c rid).2 = none →
      ∀ res : Response,
        ((p.CreateProducer c rid).1.Receive).2 = Except.ok res →
          ((res.baseCommand.type = CommandType.PRODUCER_SUCCESS →
              (p.Open c rid).2.2 = none ∧
              (p.Open c rid).1.Name =
                GetProducerName res.baseCommand.rawCommand.producerSuccess) ∧
           (res.baseCommand.type ≠ CommandType.PRODUCER_SUCCESS →
              (p.Open c rid).2.2 =
                some (PError.unknownCommandType res.baseCommand.type) ∧
              (p.Open c rid).1.Name = p.Name))) ∧
    ((p.CreateProducer c rid).2 = none →
      ∀ e : PError,
        ((p.CreateProducer c rid).1.Receive).2 = Except.error e →
          (p.Open c rid).2.2 =
            some (PError.wrap "failed to receive producerSuccess command" e) ∧
          (p.Open c rid).1.Name = p.Name) ∧
    (∀ e : PError, (p.CreateProducer c rid).2 = some e →
      (p.Open c rid).2.2 = some e ∧ (p.Open c rid).1.Name = p.Name) := by
  rcases hcp : p.CreateProducer c rid with ⟨c1, err⟩
  rcases hrc : c1.Receive with ⟨c2, r⟩
  cases err with
  | some e0 => simp [hcp, Producer.Open]
  | none =>
      cases r with
      | error e1 =>
          simp [hcp, hrc, Producer.Open, Producer.ReceiveProducerSuccess]
      | ok res0 =>
          rcases res0 with ⟨⟨t, raw⟩, pl⟩
          cases t <;>
            simp [hcp, hrc, Producer.Open, Producer.ReceiveProducerSuccess,
              GetProducerName]

/-- A connection scripted to reply with a SEND_RECEIPT-kind command. -/
def receiptReplyConn : ConnState :=
  { recvScript :=
      [Except.ok
        { baseCommand := { type := CommandType.SEND_RECEIPT,
                           rawCommand := {} },
          payload := "" }] }

theorem open_name_iff_producer_success_witness :
    ((NewProducer 1 "t").Open receiptReplyConn 5).2.2 =
      some (PError.unknownCommandType CommandType.SEND_RECEIPT) ∧
    ((NewProducer 1 "t").Open receiptReplyConn 5).1.Name = "" :=
  ((open_name_iff_producer_success (NewProducer 1 "t") receiptReplyConn 5).1
    rfl
    { baseCommand := { type := CommandType.SEND_RECEIPT, rawCommand := {} },
      payload := "" }
    rfl).2 (by decide)

/-- Claim C7: every transport failure from the connection is wrapped with
the name of the attempted operation and propagated to the caller with the
original cause unchanged: each listed operation returns the wrap of its
own label around the connection error. -/
theorem transport_errors_wrapped (e : PError) :
    (∀ (c : ConnState) (topic sub st : String) (cid rid : Nat)
       (rest : List (Option PError)), c.lookupScript = [] →
       c.sendScript = some e :: rest →
       (Consumer.Subscribe c topic sub st cid rid).2 =
         some (PError.wrap "failed to send subscribe command" e)) ∧
    (∀ (c : ConnState) (cid mp : Nat) (rest : List (Option PError)),
       c.sendScript = some e :: rest →
       (Consumer.Flow c cid mp).2 =
         some (PError.wrap "failed to request flow command" e)) ∧
    (∀ (c : ConnState) (cid : Nat) (ak : AckType)
       (mid : Option MessageIdData) (ve : Option ValidationError)
       (rest : List (Option PError)), c.sendScript = some e :: rest →
       (Consumer.SendAck c cid ak mid ve).2 =
         some (PError.wrap "failed to send ack command" e)) ∧
    (∀ (p : Producer) (c : ConnState) (now : Nat) (pl : String)
       (kv : KeyValues) (rest : List (Option PError)),
       c.sendScript = some e :: rest →
       (p.SendSend c now pl kv).2.2 =
         some (PError.wrap "failed to send send command" e)) ∧
    (∀ (p : Producer) (c : ConnState) (now : Nat) (msgs : List String)
       (comp : Option CompressionType) (rest : List (Option PError)),
       c.sendScript = some e :: rest →
       (p.SendBatchSend c now msgs comp).2.2 =
         some (PError.wrap "failed to send batch send command" e)) ∧
    (∀ (p : Producer) (c : ConnState) (rid : Nat)
       (rest : List (Option PError)), c.sendScript = some e :: rest →
       (p.CloseProducer c rid).2.2 =
         some (PError.wrap "failed to send closeProducer command" e)) ∧
    (∀ (c : ConnState) (cid rid : Nat) (rest : List (Option PError)),
       c.sendScript = some e :: rest →
       (Consumer.CloseConsumer c cid rid).2 =
         some (PError.wrap "failed to send closeConsumer command" e)) ∧
    (∀ (p : Producer) (c : ConnState)
       (rest : List (Except PError Response)),
       c.recvScript = Except.error e :: rest →
       (p.ReceiveProducerSuccess c).2 =
         Except.error
           (PError.wrap "failed to receive producerSuccess command" e)) ∧
    (∀ (p : Producer) (c : ConnState)
       (rest : List (Except PError Response)),
       c.recvScript = Except.error e :: rest →
       (p.ReceiveSendReceipt c).2 =
         Except.error
           (PError.wrap "failed to receive sendReceipt command" e)) ∧
    (∀ (c : ConnState) (rest : List (Except PError Response)),
       c.recvScript = Except.error e :: rest →
       (Consumer.ReceiveMessage c).2 =
         Except.error
           (PError.wrap "failed to receive message command" e)) := by
  refine ⟨?_, ?_, ?_, ?_, ?_, ?_, ?_, ?_, ?_, ?_⟩
  · intro c topic sub st cid rid rest h1 h2
    simp [Consumer.Subscribe, ConnState.LookupTopic, ConnState.Send, h1, h2]
  · intro c cid mp rest h
    simp [Consumer.Flow, ConnState.Send, h]
  · intro c cid ak mid ve rest h
    simp [Consumer.SendAck, ConnState.Send, h]
  · intro p c now pl kv rest h
    simp [Producer.SendSend, ConnState.Send, h]
  · intro p c now msgs comp rest h
    simp [Producer.SendBatchSend, ConnState.Send, h]
  · intro p c rid rest h
    simp [Producer.CloseProducer, ConnState.Send, h]
  · intro c cid rid rest h
    simp [Consumer.CloseConsumer, ConnState.Send, h]
  · intro p c rest h
    simp [Producer.ReceiveProducerSuccess, ConnState.Receive, h]
  · intro p c rest h
    simp [Producer.ReceiveSendReceipt, ConnState.Receive, h]
  · intro c rest h
    simp [Consumer.ReceiveMessage, ConnState.Receive, h]

/-- A connection whose next send fails with a transport error. -/
def failingSendConn : ConnState :=
  { sendScript := [some (PError.connFailure "broken pipe")] }

theorem transport_errors_wrapped_witness :
    ((NewProducer 5 "t").SendSend failingSendConn 1 "x" []).2.2 =
      some (PError.wrap "failed to send send command"
        (PError.connFailure "broken pipe")) :=
  (transport_errors_wrapped (PError.connFailure "broken pipe")).2.2.2.1
    (NewProducer 5 "t") failingSendConn 1 "x" [] [] rfl

/-- Claim C8: when the receive succeeds, ReceiveSendReceipt returns the
reply read as a send receipt with a nil error for every reply, whatever
its command kind: no kind validation and no protocol error, unlike the
receive step of Open. -/
theorem receiveSendReceipt_no_validation (p : Producer) (c : ConnState)
    (res : Response) (rest : List (Except PError Response))
    (h : c.recvScript = Except.ok res :: rest) :
    (p.ReceiveSendReceipt c).2 =
      Except.ok res.baseCommand.rawCommand.sendReceipt := by
  simp [Producer.ReceiveSendReceipt, ConnState.Receive, h]

/-- A connection scripted to reply with a MESSAGE-kind command. -/
def messageReplyConn : ConnState :=
  { recvScript :=
      [Except.ok
        { baseCommand := { type := CommandType.MESSAGE,
                           rawCommand := {} },
          payload := "pl" }] }

theorem receiveSendReceipt_no_validation_witness :
    ((NewProducer 2 "t").ReceiveSendReceipt messageReplyConn).2 =
      Except.ok none :=
  receiveSendReceipt_no_validation (NewProducer 2 "t") messageReplyConn
    { baseCommand := { type := CommandType.MESSAGE, rawCommand := {} },
      payload := "pl" } [] rfl

/-- Claim C9 (frame): SendSend and SendBatchSend leave Name, Topic and ID
unchanged and modify only SequenceID, incrementing it by exactly one, and
CloseProducer modifies no field at all (stated below the uint64 counter
capacity, where the increment does not wrap). -/
theorem producer_ops_frame (p : Producer) (c : ConnState) (now : Nat)
    (pl : String) (kv : KeyValues) (msgs : List String)
    (comp : Option CompressionType) (rid : Nat)
    (h : p.SequenceID + 1 < U64) :
    (p.SendSend c now pl kv).1 =
      { p with SequenceID := p.SequenceID + 1 } ∧
    (p.SendBatchSend c now msgs comp).1 =
      { p with SequenceID := p.SequenceID + 1 } ∧
    (p.CloseProducer c rid).1 = p := by
  have hm := Nat.mod_eq_of_lt h
  refine ⟨?_, ?_, ?_⟩
  all_goals
    cases hss : c.sendScript with
    | nil =>
        simp [Producer.SendSend, Producer.SendBatchSend,
          Producer.CloseProducer, ConnState.Send, hss, hm]
    | cons e rest =>
        cases e <;>
          simp [Producer.SendSend, Producer.SendBatchSend,
            Producer.CloseProducer, ConnState.Send, hss, hm]

theorem producer_ops_frame_witness :
    ((NewProducer 4 "t").SendSend {} 1 "x" []).1 =
      { NewProducer 4 "t" with
          SequenceID := (NewProducer 4 "t").SequenceID + 1 } ∧
    ((NewProducer 4 "t").SendBatchSend {} 1 ["m"] none).1 =
      { NewProducer 4 "t" with
          SequenceID := (NewProducer 4 "t").SequenceID + 1 } ∧
    ((NewProducer 4 "t").CloseProducer {} 9).1 = NewProducer 4 "t" :=
  producer_ops_frame (NewProducer 4 "t") {} 1 "x" [] ["m"] none 9
    (by norm_num [NewProducer, U64])

/-- Claim C10: when the receive succeeds, ReceiveMessage unconditionally
builds a message value from the reply's message command and payload and
returns it with a nil error, for every reply kind; there is no
protocol-error branch for non-message replies. -/
theorem receiveMessage_unconditional (c : ConnState) (res : Response)
    (rest : List (Except PError Response))
    (h : c.recvScript = Except.ok res :: rest) :
    (Consumer.ReceiveMessage c).2 =
      Except.ok (NewMessage res.baseCommand.rawCommand.message res.payload) := by
  simp [Consumer.ReceiveMessage, ConnState.Receive, h]

/-- A connection scripted to reply with a SEND_RECEIPT-kind command,
carrying no message sub-command. -/
def receiptOnlyConn : ConnState :=
  { recvScript :=
      [Except.ok
        { baseCommand := { type := CommandType.SEND_RECEIPT,
                           rawCommand := {} },
          payload := "raw" }] }

theorem receiveMessage_unconditional_witness :
    (Consumer.ReceiveMessage receiptOnlyConn).2 =
      Except.ok (NewMessage none "raw") :=
  receiveMessage_unconditional receiptOnlyConn
    { baseCommand := { type := CommandType.SEND_RECEIPT, rawCommand := {} },
      payload := "raw" } [] rfl

end GoPulsar
